import Mathlib

/-!
Shallow embedding of the WESE EMF modeling script (src/Main.py), which builds a
FEMM model of the electromagnetic fields surrounding a three-phase submarine
power cable.  The script's floating point arithmetic is modelled by exact real
arithmetic; the FEMM calls are modelled as an emitted list of events
(materials, drawing primitives, block property assignments, circuits), and the
post-solve sampling loops are modelled by the normalization function they apply
to each raw current-density sample.
-/

namespace EMF

noncomputable section

open Real

/-! ## User inputs (Main.py lines 29-43) -/

/-- Conductor cross sectional area in mm^2 (line 29). -/
def A_cond : ℝ := 50

/-- Conductor screen thickness in mm (line 30). -/
def cond_screen : ℝ := 0.2

/-- Conductor insulation thickness in mm (line 31). -/
def insulation : ℝ := 3.4

/-- Conductor insulation screen, non metallic, thickness in mm (line 32). -/
def insul_screen_NM : ℝ := 3.0

/-- Conductor insulation screen (sheath), metallic, thickness in mm (line 33). -/
def insul_screen_ME : ℝ := 0.2

/-- Bedding thickness in mm (line 34). -/
def bedding : ℝ := 0.2

/-- Armour wire radius in mm (line 35). -/
def r_armour : ℝ := 2.00

/-- Second armour layer wire radius in mm; 0 means non-existent (line 36). -/
def r_armour_2 : ℝ := 0

/-- Over sheath thickness in mm (line 37). -/
def over_sheath : ℝ := 2.0

/-- RMS phase current in A (line 39). -/
def AMPS_RMS : ℝ := 0.057

/-- Peak phase current in A (line 40): sqrt 2 times the RMS current. -/
def AMPS : ℝ := Real.sqrt 2 * AMPS_RMS

/-- Grid frequency in Hz (line 41). -/
def freq : ℝ := 50

/-- Burial depth in mm; 0 means surface laid (line 43). -/
def burial_depth : ℝ := 2000

/-! ## Support variables (lines 46-57) -/

/-- Conductor radius in mm, derived from the cross sectional area (line 46). -/
def r_cond : ℝ := Real.sqrt (A_cond / π)

/-- Conductor screen radius (line 47). -/
def r_cond_screen : ℝ := r_cond + cond_screen

/-- Conductor insulation radius (line 48). -/
def r_cond_insul : ℝ := r_cond + cond_screen + insulation

/-- Conductor insulation screen radius, non metallic (line 49). -/
def r_cond_insu_screen_NM : ℝ := r_cond + cond_screen + insulation + insul_screen_NM

/-- Total conductor radius (line 50). -/
def r_cond_total : ℝ :=
  r_cond + cond_screen + insulation + insul_screen_NM + insul_screen_ME

/-- Small gap between the conductors and the bedding, mm (line 52). -/
def dist1 : ℝ := 0.01

/-- Small gap between the subsea cable and the core, mm (line 53, unused). -/
def dist2 : ℝ := 0.01

/-- Distance between conductor surfaces, mm (line 55). -/
def cond_surf : ℝ := 0.2

/-- Distance between conductor centers, mm (line 57). -/
def cond_center : ℝ := 2 * r_cond_total + cond_surf

/-! ## Material characteristics (lines 63-101) -/

/-- Copper conductivity in S/m (line 64). -/
def copper_conductivity : ℝ := 58000000

/-- Copper relative permeability (line 65). -/
def copper_permeability : ℝ := 1.0

/-- XLPE conductivity in S/m (line 68). -/
def XLPE_conductivity : ℝ := 0.0

/-- XLPE relative permeability (line 69). -/
def XLPE_permeability : ℝ := 1.0

/-- Non metallic insulation screen conductivity in S/m (line 72). -/
def NM_screen_conductivity : ℝ := 1.0

/-- Non metallic insulation screen relative permeability (line 73). -/
def NM_screen_permeability : ℝ := 1.0

/-- Metallic insulation screen conductivity in S/m (line 76). -/
def M_screen_conductivity : ℝ := 5000000

/-- Metallic insulation screen relative permeability (line 77). -/
def M_screen_permeability : ℝ := 1.0

/-- Inner sheath conductivity in S/m (line 80). -/
def inner_conductivity : ℝ := 0.0

/-- Inner sheath relative permeability (line 81). -/
def inner_permeability : ℝ := 1.0

/-- Bedding conductivity in S/m (line 84). -/
def bedding_conductivity : ℝ := 0.0

/-- Bedding relative permeability (line 85). -/
def bedding_permeability : ℝ := 1.0

/-- Armour conductivity in S/m (line 88). -/
def armour_conductivity : ℝ := 1100000

/-- Armour relative permeability (line 89). -/
def armour_permeability : ℝ := 300

/-- Over sheath conductivity in S/m (line 92). -/
def over_conductivity : ℝ := 0.0

/-- Over sheath relative permeability (line 93). -/
def over_permeability : ℝ := 1.0

/-- Seawater conductivity in S/m (line 96). -/
def seawater_conductivity : ℝ := 5.0

/-- Seawater relative permeability (line 97). -/
def seawater_permeability : ℝ := 1.0

/-- Seabed (sand) conductivity in S/m (line 100). -/
def seabed_conductivity : ℝ := 1.0

/-- Seabed relative permeability (line 101). -/
def seabed_permeability : ℝ := 1.0

/-! ## Registered materials (mi_addmaterial calls, lines 127-146)

A material record keeps the arguments the script passes to mi_addmaterial:
name, the two relative permeabilities, permanent magnet field strength,
applied source current density, and electrical conductivity in MS/m. -/

structure Material where
  name : String
  mu_x : ℝ
  mu_y : ℝ
  H_c : ℝ
  J : ℝ
  Cduct : ℝ

/-- The ten mi_addmaterial calls of lines 127-146, in source order, as a
function of the copper_conductivity input.  Note that line 127-128 passes
seawater_conductivity (not the copper_conductivity input) as the conductivity
of the material named copper_conductors; the input is referenced nowhere
else, so it appears in no emitted value. -/
def addedMaterials (copper_conductivity : ℝ) : List Material :=
  [⟨"copper_conductors", copper_permeability, copper_permeability, 0, 0,
      seawater_conductivity * (10 : ℝ) ^ (-6 : ℤ)⟩,
   ⟨"XLPE", XLPE_permeability, XLPE_permeability, 0, 0,
      XLPE_conductivity * (10 : ℝ) ^ (-6 : ℤ)⟩,
   ⟨"M_screen", M_screen_permeability, M_screen_permeability, 0, 0,
      M_screen_conductivity * (10 : ℝ) ^ (-6 : ℤ)⟩,
   ⟨"NM_screen", NM_screen_permeability, NM_screen_permeability, 0, 0,
      NM_screen_conductivity * (10 : ℝ) ^ (-6 : ℤ)⟩,
   ⟨"inner", inner_permeability, inner_permeability, 0, 0,
      inner_conductivity * (10 : ℝ) ^ (-6 : ℤ)⟩,
   ⟨"bedding", bedding_permeability, bedding_permeability, 0, 0,
      bedding_conductivity * (10 : ℝ) ^ (-6 : ℤ)⟩,
   ⟨"armour", armour_permeability, armour_permeability, 0, 0,
      armour_conductivity * (10 : ℝ) ^ (-6 : ℤ)⟩,
   ⟨"over", over_permeability, over_permeability, 0, 0,
      over_conductivity * (10 : ℝ) ^ (-6 : ℤ)⟩,
   ⟨"seawater", seawater_permeability, seawater_permeability, 0, 0,
      seawater_conductivity * (10 : ℝ) ^ (-6 : ℤ)⟩,
   ⟨"seabed", seabed_permeability, seabed_permeability, 0, 0,
      seabed_conductivity * (10 : ℝ) ^ (-6 : ℤ)⟩]

/-! ## Geometry constants (lines 150-167, 197-198, 306-310, 362-381) -/

/-- Base mesh size hint (line 150). -/
def GridSize : ℝ := 0.3 * r_cond_total

/-- Apothem of the equilateral conductor triangle (line 155). -/
def delta_y_triangle : ℝ := (1 / 6) * Real.sqrt 3 * cond_center

/-- Fine mesh region half width in mm (line 166). -/
def limit_fine : ℝ := 400

/-- Coarse mesh region half width in mm (line 167). -/
def limit_coarse : ℝ := 3500

/-- Degrees to radians conversion, as np.radians does. -/
def radians (d : ℝ) : ℝ := d * π / 180

/-- Cosine of 60 degrees (line 197). -/
def cos60 : ℝ := Real.cos (radians 60)

/-- Sine of 60 degrees (line 198). -/
def sin60 : ℝ := Real.sin (radians 60)

/-- Distance between armour elements, mm (line 306). -/
def space : ℝ := 0.05

/-- Radius of the circle on which the first armour wire centers sit (line 307). -/
def R_armour : ℝ :=
  (cond_center * sin60 - delta_y_triangle) + r_cond_total + bedding + r_armour

/-- Perimeter of the armour wire center circle (line 308). -/
def Armour_perimeter : ℝ := 2 * π * R_armour

/-- Number of armour wires packed on the first ring (line 309):
int(floor(perimeter / (wire diameter plus gap))). -/
def NbrOfArmourElem : ℤ := ⌊Armour_perimeter / (2 * r_armour + space)⌋

/-- The generic armour ring packer that lines 306-309 instantiate: the number
of wires of radius r_w separated by gap g that fit on the circle of radius R,
namely the floor of the ratio of the ring perimeter to the per-wire arc
allocation. -/
def armourCount (R r_w g : ℝ) : ℤ := ⌊2 * π * R / (2 * r_w + g)⌋

/-- Angular step between consecutive armour wires for a packed count N
(line 310, with the count abstracted): np.radians(360 / N).  When N = 0 the
script instead dies with a ZeroDivisionError at this line. -/
def thetaOf (N : ℤ) : ℝ := radians (360 / (N : ℝ))

/-- The script's angular step between consecutive armour wires (line 310). -/
def theta : ℝ := thetaOf NbrOfArmourElem

/-- Center of armour wire i (i counted from 1 as in the loop at line 313) on a
ring of radius R packed with N wires, from the drawing calls of lines 314-316:
x = R sin((i-1) theta), y = R cos((i-1) theta). -/
def armourWireCenter (R : ℝ) (N : ℤ) (i : ℤ) : ℝ × ℝ :=
  (R * Real.sin (((i : ℝ) - 1) * thetaOf N), R * Real.cos (((i : ℝ) - 1) * thetaOf N))

/-- Overall cable radius for the single-armour-layer configuration (line 378;
the script takes this else branch because r_armour_2 = 0). -/
def R_cable_total : ℝ := R_armour + r_armour + over_sheath + dist1

/-- The integer truncation int(R_cable_total) used by the sampling loops
(lines 584-587, 618); R_cable_total is positive, so int() is the floor. -/
def intRcable : ℤ := ⌊R_cable_total⌋

/-! ## Euclidean distance in the drawing plane -/

/-- Distance between two points of the drawing plane. -/
def planeDist (p q : ℝ × ℝ) : ℝ :=
  Real.sqrt ((p.1 - q.1) ^ 2 + (p.2 - q.2) ^ 2)

/-! ## Generic conductor bundle layout (lines 155, 197-198, 201, 230, 259)

The three conductor center block labels of lines 201, 230 and 259, with the
center spacing cond_center abstracted as d. -/

/-- Apothem of the equilateral triangle for center spacing d (line 155). -/
def deltaY (d : ℝ) : ℝ := (1 / 6) * Real.sqrt 3 * d

/-- Center of conductor 1 (line 201): (d cos60, -apothem). -/
def bundleCenter1 (d : ℝ) : ℝ × ℝ := (d * cos60, -deltaY d)

/-- Center of conductor 2 (line 230): (0, d sin60 - apothem). -/
def bundleCenter2 (d : ℝ) : ℝ × ℝ := (0, d * sin60 - deltaY d)

/-- Center of conductor 3 (line 259): (-d cos60, -apothem). -/
def bundleCenter3 (d : ℝ) : ℝ × ℝ := (-(d * cos60), -deltaY d)

/-! ## Generic layer radius calculator (lines 46-50)

Lines 46-50 compute cumulative outer radii from the base conductor radius by
adding each successive layer thickness.  The generic form takes the area A and
the ordered thickness list. -/

/-- Base conductor radius derived from the cross sectional area (line 46). -/
def baseRadius (A : ℝ) : ℝ := Real.sqrt (A / π)

/-- Cumulative sums r + t1, r + t1 + t2, ... of a thickness list on top of a
base radius r. -/
def cumRadii (r : ℝ) : List ℝ → List ℝ
  | [] => []
  | t :: ts => (r + t) :: cumRadii (r + t) ts

/-- Cumulative layer boundary radii for area A and thickness list ts, the
pattern of lines 46-50. -/
def layerRadii (A : ℝ) (ts : List ℝ) : List ℝ := cumRadii (baseRadius A) ts

/-! ## Circuit phasors (lines 546-548) -/

/-- Current phasor of circuit icoil1 (line 546): AMPS + 0j. -/
def icoil1 : ℂ := (AMPS : ℂ) + 0 * Complex.I

/-- Current phasor of circuit icoil2 (line 547): -0.5 AMPS + 0.866 AMPS j. -/
def icoil2 : ℂ := -0.5 * (AMPS : ℂ) + (AMPS : ℂ) * 0.866 * Complex.I

/-- Current phasor of circuit icoil3 (line 548): -0.5 AMPS - 0.866 AMPS j. -/
def icoil3 : ℂ := -0.5 * (AMPS : ℂ) - (AMPS : ℂ) * 0.866 * Complex.I

/-- The unit phasor at angle th radians, used to state the phase of the
emitted circuit currents. -/
def unitPhasor (th : ℝ) : ℂ := (Real.cos th : ℂ) + (Real.sin th : ℂ) * Complex.I

/-! ## Field sampler normalization (lines 590-593, 596-599, 623-626)

Each electric field sample divides the raw current density magnitude by
seabed conductivity when the burial depth is nonzero and the sample's vertical
offset y is at or below it, and by seawater conductivity otherwise; all three
sampling loops (near, far, radial) apply this same rule to their own y. -/

/-- Normalized electric field sample for burial depth bd, sample height y and
raw current density j: (|j| * 10^6 / conductivity) * 10^6. -/
def normE (bd y j : ℝ) : ℝ :=
  if bd ≠ 0 ∧ y ≤ bd then |j| * 10 ^ 6 / seabed_conductivity * 10 ^ 6
  else |j| * 10 ^ 6 / seawater_conductivity * 10 ^ 6

/-- Vertical offset of the near profile for pass p (line 584):
int(R_cable_total) + 100 p. -/
def yNear (p : ℤ) : ℝ := (intRcable : ℝ) + 100 * (p : ℝ)

/-- Vertical offset of the far profile for pass p (line 586):
int(R_cable_total) + 1000 p. -/
def yFar (p : ℤ) : ℝ := (intRcable : ℝ) + 1000 * (p : ℝ)

/-! ## The emitted FEMM event trace (lines 170-384, 400-548, 559-564)

Each FEMM call of the script that feeds the model is an event.  The script is
a straight-line program: the trace below lists the calls in source order.  Two
places are data dependent and appear as parameters: the burial depth bd
(the seabed conditional of lines 187 and 404) and the packed armour count N
(computed at line 309 and used by line 310 and the armour loops).  Since
r_armour_2 = 0, the script takes the else branches of lines 362 and 459;
those are the branches transcribed.  The bare attribute accesses
femm.mi_clearselected (lines 427, 448, 534, 538) are not calls and do
nothing, so they emit no event. -/

inductive Event where
  | addblocklabel (x y : ℝ)
  | drawline (x1 y1 x2 y2 : ℝ)
  | drawarc (x1 y1 x2 y2 angle maxseg : ℝ)
  | selectlabel (x y : ℝ)
  | setblockprop (blockname : String) (automesh : ℝ) (meshsize : ℝ)
      (incircuit : String) (magdir group turns : ℝ)
  | addcircprop (circuitname : String) (current : ℂ) (circuittype : ℝ)
  | saveas (fname : String)
  | analyze
  | loadsolution

/-- Whether an event draws a geometric primitive (a line or arc segment). -/
def Event.isGeometry : Event → Bool
  | .drawline _ _ _ _ => true
  | .drawarc _ _ _ _ _ _ => true
  | _ => false

/-- Whether an event invokes the solver. -/
def Event.isAnalyze : Event → Bool
  | .analyze => true
  | _ => false

/-- Whether an event assigns the named material to a region. -/
def Event.setsMaterial (m : String) : Event → Bool
  | .setblockprop b _ _ _ _ _ _ => b == m
  | _ => false

/-- A loop body executed twice: the script repeats each select-and-assign pair
with a two-iteration for loop to work around the selection state (line 389). -/
def twice (l : List Event) : List Event := l ++ l

/-- Outer and inner mesh boundary squares (lines 170-181). -/
def envDraw : List Event :=
  [.addblocklabel (limit_coarse * 4 / 5) (limit_coarse * 4 / 5),
   .drawline limit_coarse limit_coarse limit_coarse (-limit_coarse),
   .drawline limit_coarse limit_coarse (-limit_coarse) limit_coarse,
   .drawline (-limit_coarse) (-limit_coarse) limit_coarse (-limit_coarse),
   .drawline (-limit_coarse) (-limit_coarse) (-limit_coarse) limit_coarse,
   .addblocklabel (limit_fine * 4 / 5) (limit_fine * 4 / 5),
   .drawline limit_fine limit_fine limit_fine (-limit_fine),
   .drawline limit_fine limit_fine (-limit_fine) limit_fine,
   .drawline (-limit_fine) (-limit_fine) limit_fine (-limit_fine),
   .drawline (-limit_fine) (-limit_fine) (-limit_fine) limit_fine]

/-- Seabed split line and its label, emitted only when the burial depth is
nonzero and exceeds the fine mesh half width (lines 187-191). -/
def seabedDraw (bd : ℝ) : List Event :=
  if bd ≠ 0 ∧ bd > limit_fine then
    [.addblocklabel (limit_coarse * 4 / 5) (-limit_coarse * 4 / 5),
     .drawline (-limit_coarse) bd limit_coarse bd]
  else []

/-- Conductor 1 and its four screen and insulation annuli (lines 200-223). -/
def conductor1Draw : List Event :=
  [.addblocklabel (cond_center * cos60) (-delta_y_triangle),
   .drawarc (cond_center * cos60 - r_cond) (-delta_y_triangle)
     (cond_center * cos60 + r_cond) (-delta_y_triangle) 180 3,
   .drawarc (cond_center * cos60 + r_cond) (-delta_y_triangle)
     (cond_center * cos60 - r_cond) (-delta_y_triangle) 180 3,
   .addblocklabel (cond_center * cos60 + r_cond_screen - 0.5 * cond_screen)
     (-delta_y_triangle),
   .drawarc (cond_center * cos60 - r_cond_screen) (-delta_y_triangle)
     (cond_center * cos60 + r_cond_screen) (-delta_y_triangle) 180 3,
   .drawarc (cond_center * cos60 + r_cond_screen) (-delta_y_triangle)
     (cond_center * cos60 - r_cond_screen) (-delta_y_triangle) 180 3,
   .addblocklabel (cond_center * cos60 + r_cond_insul - 0.5 * insulation)
     (-delta_y_triangle),
   .drawarc (cond_center * cos60 - r_cond_insul) (-delta_y_triangle)
     (cond_center * cos60 + r_cond_insul) (-delta_y_triangle) 180 3,
   .drawarc (cond_center * cos60 + r_cond_insul) (-delta_y_triangle)
     (cond_center * cos60 - r_cond_insul) (-delta_y_triangle) 180 3,
   .addblocklabel
     (cond_center * cos60 + r_cond_insu_screen_NM - 0.5 * insul_screen_NM)
     (-delta_y_triangle),
   .drawarc (cond_center * cos60 - r_cond_insu_screen_NM) (-delta_y_triangle)
     (cond_center * cos60 + r_cond_insu_screen_NM) (-delta_y_triangle) 180 3,
   .drawarc (cond_center * cos60 + r_cond_insu_screen_NM) (-delta_y_triangle)
     (cond_center * cos60 - r_cond_insu_screen_NM) (-delta_y_triangle) 180 3,
   .addblocklabel (cond_center * cos60 + r_cond_total - 0.5 * insul_screen_ME)
     (-delta_y_triangle),
   .drawarc (cond_center * cos60 - r_cond_total) (-delta_y_triangle)
     (cond_center * cos60 + r_cond_total) (-delta_y_triangle) 180 3,
   .drawarc (cond_center * cos60 + r_cond_total) (-delta_y_triangle)
     (cond_center * cos60 - r_cond_total) (-delta_y_triangle) 180 3]

/-- Conductor 2 and its annuli (lines 229-252). -/
def conductor2Draw : List Event :=
  [.addblocklabel 0 (cond_center * sin60 - delta_y_triangle),
   .drawarc 0 (cond_center * sin60 - r_cond - delta_y_triangle)
     0 (cond_center * sin60 + r_cond - delta_y_triangle) 180 3,
   .drawarc 0 (cond_center * sin60 + r_cond - delta_y_triangle)
     0 (cond_center * sin60 - r_cond - delta_y_triangle) 180 3,
   .addblocklabel (0 + r_cond_screen - 0.5 * cond_screen)
     (cond_center * sin60 - delta_y_triangle),
   .drawarc 0 (cond_center * sin60 - r_cond_screen - delta_y_triangle)
     0 (cond_center * sin60 + r_cond_screen - delta_y_triangle) 180 3,
   .drawarc 0 (cond_center * sin60 + r_cond_screen - delta_y_triangle)
     0 (cond_center * sin60 - r_cond_screen - delta_y_triangle) 180 3,
   .addblocklabel (0 + r_cond_insul - 0.5 * insulation)
     (cond_center * sin60 - delta_y_triangle),
   .drawarc 0 (cond_center * sin60 - r_cond_insul - delta_y_triangle)
     0 (cond_center * sin60 + r_cond_insul - delta_y_triangle) 180 3,
   .drawarc 0 (cond_center * sin60 + r_cond_insul - delta_y_triangle)
     0 (cond_center * sin60 - r_cond_insul - delta_y_triangle) 180 3,
   .addblocklabel (0 + r_cond_insu_screen_NM - 0.5 * insul_screen_NM)
     (cond_center * sin60 - delta_y_triangle),
   .drawarc 0 (cond_center * sin60 - r_cond_insu_screen_NM - delta_y_triangle)
     0 (cond_center * sin60 + r_cond_insu_screen_NM - delta_y_triangle) 180 3,
   .drawarc 0 (cond_center * sin60 + r_cond_insu_screen_NM - delta_y_triangle)
     0 (cond_center * sin60 - r_cond_insu_screen_NM - delta_y_triangle) 180 3,
   .addblocklabel (0 + r_cond_total - 0.5 * insul_screen_ME)
     (cond_center * sin60 - delta_y_triangle),
   .drawarc 0 (cond_center * sin60 - r_cond_total - delta_y_triangle)
     0 (cond_center * sin60 + r_cond_total - delta_y_triangle) 180 3,
   .drawarc 0 (cond_center * sin60 + r_cond_total - delta_y_triangle)
     0 (cond_center * sin60 - r_cond_total - delta_y_triangle) 180 3]

/-- Conductor 3 and its annuli (lines 258-281). -/
def conductor3Draw : List Event :=
  [.addblocklabel (-(cond_center * cos60)) (-delta_y_triangle),
   .drawarc (-(cond_center * cos60) - r_cond) (0 - delta_y_triangle)
     (-(cond_center * cos60) + r_cond) (0 - delta_y_triangle) 180 3,
   .drawarc (-(cond_center * cos60) + r_cond) (0 - delta_y_triangle)
     (-(cond_center * cos60) - r_cond) (0 - delta_y_triangle) 180 3,
   .addblocklabel (-(cond_center * cos60) + r_cond_screen - 0.5 * cond_screen)
     (-delta_y_triangle),
   .drawarc (-(cond_center * cos60) - r_cond_screen) (0 - delta_y_triangle)
     (-(cond_center * cos60) + r_cond_screen) (0 - delta_y_triangle) 180 3,
   .drawarc (-(cond_center * cos60) + r_cond_screen) (0 - delta_y_triangle)
     (-(cond_center * cos60) - r_cond_screen) (0 - delta_y_triangle) 180 3,
   .addblocklabel (-(cond_center * cos60) + r_cond_insul - 0.5 * insulation)
     (-delta_y_triangle),
   .drawarc (-(cond_center * cos60) - r_cond_insul) (0 - delta_y_triangle)
     (-(cond_center * cos60) + r_cond_insul) (0 - delta_y_triangle) 180 3,
   .drawarc (-(cond_center * cos60) + r_cond_insul) (0 - delta_y_triangle)
     (-(cond_center * cos60) - r_cond_insul) (0 - delta_y_triangle) 180 3,
   .addblocklabel
     (-(cond_center * cos60) + r_cond_insu_screen_NM - 0.5 * insul_screen_NM)
     (-delta_y_triangle),
   .drawarc (-(cond_center * cos60) - r_cond_insu_screen_NM) (0 - delta_y_triangle)
     (-(cond_center * cos60) + r_cond_insu_screen_NM) (0 - delta_y_triangle) 180 3,
   .drawarc (-(cond_center * cos60) + r_cond_insu_screen_NM) (0 - delta_y_triangle)
     (-(cond_center * cos60) - r_cond_insu_screen_NM) (0 - delta_y_triangle) 180 3,
   .addblocklabel
     (-(cond_center * cos60) + r_cond_total - 0.5 * insul_screen_ME)
     (-delta_y_triangle),
   .drawarc (-(cond_center * cos60) - r_cond_total) (0 - delta_y_triangle)
     (-(cond_center * cos60) + r_cond_total) (0 - delta_y_triangle) 180 3,
   .drawarc (-(cond_center * cos60) + r_cond_total) (0 - delta_y_triangle)
     (-(cond_center * cos60) - r_cond_total) (0 - delta_y_triangle) 180 3]

/-- Laying up and filling label (line 286). -/
def fillingDraw : List Event := [.addblocklabel 0 0]

/-- Bedding annulus, inner and outer boundary (lines 293-299). -/
def beddingDraw : List Event :=
  [.addblocklabel 0
     (cond_center * sin60 + r_cond_total - delta_y_triangle + 0.5 * bedding),
   .drawarc 0 (cond_center * sin60 + r_cond_total - delta_y_triangle + dist1)
     0 (-(cond_center * sin60) - r_cond_total + delta_y_triangle - dist1) 180 3,
   .drawarc 0 (-(cond_center * sin60) - r_cond_total + delta_y_triangle - dist1)
     0 (cond_center * sin60 + r_cond_total - delta_y_triangle + dist1) 180 3,
   .drawarc 0 (cond_center * sin60 + r_cond_total - delta_y_triangle + bedding)
     0 (-(cond_center * sin60) - r_cond_total + delta_y_triangle - bedding) 180 3,
   .drawarc 0 (-(cond_center * sin60) - r_cond_total + delta_y_triangle - bedding)
     0 (cond_center * sin60 + r_cond_total - delta_y_triangle + bedding) 180 3]

/-- Armour wire i of the first layer, for packed count N (lines 314-316). -/
def armourWireDraw (N i : ℤ) : List Event :=
  [.addblocklabel (R_armour * Real.sin (((i : ℝ) - 1) * thetaOf N))
     (R_armour * Real.cos (((i : ℝ) - 1) * thetaOf N)),
   .drawarc ((R_armour - r_armour + dist1) * Real.sin (((i : ℝ) - 1) * thetaOf N))
     ((R_armour - r_armour + dist1) * Real.cos (((i : ℝ) - 1) * thetaOf N))
     ((R_armour + r_armour - dist1) * Real.sin (((i : ℝ) - 1) * thetaOf N))
     ((R_armour + r_armour - dist1) * Real.cos (((i : ℝ) - 1) * thetaOf N)) 180 3,
   .drawarc ((R_armour + r_armour - dist1) * Real.sin (((i : ℝ) - 1) * thetaOf N))
     ((R_armour + r_armour - dist1) * Real.cos (((i : ℝ) - 1) * thetaOf N))
     ((R_armour - r_armour + dist1) * Real.sin (((i : ℝ) - 1) * thetaOf N))
     ((R_armour - r_armour + dist1) * Real.cos (((i : ℝ) - 1) * thetaOf N)) 180 3]

/-- First armour layer: the loop of line 313 for i from 1 to N. -/
def armourDraw (N : ℤ) : List Event :=
  (List.range N.toNat).flatMap fun j => armourWireDraw N ((j : ℤ) + 1)

/-- Label for the area between the armour wires (line 322). -/
def areaDraw (N : ℤ) : List Event :=
  [.addblocklabel ((R_armour - 0.4 * r_armour) * Real.sin ((1 - 0.5) * thetaOf N))
     ((R_armour - 0.4 * r_armour) * Real.cos ((1 - 0.5) * thetaOf N))]

/-- Over sheath annulus for the single-armour-layer branch (lines 369-375). -/
def overSheathDraw : List Event :=
  [.addblocklabel 0 (R_armour + r_armour + dist1 + 0.5 * over_sheath),
   .drawarc 0 (R_armour + r_armour + dist1) 0 (-R_armour - r_armour - dist1) 180 2,
   .drawarc 0 (-R_armour - r_armour - dist1) 0 (R_armour + r_armour + dist1) 180 2,
   .drawarc 0 (R_armour + r_armour + over_sheath + 2 * dist1)
     0 (-R_armour - r_armour - over_sheath - 2 * dist1) 180 2,
   .drawarc 0 (-R_armour - r_armour - over_sheath - 2 * dist1)
     0 (R_armour + r_armour + over_sheath + 2 * dist1) 180 2]

/-- Environment rectangle properties (lines 400-416): the outer rectangle is
always seawater; the inner rectangle and the region below the split line are
seabed only when the burial depth is nonzero and exceeds the fine mesh half
width, otherwise the inner rectangle is seawater as well. -/
def envProps (bd : ℝ) : List Event :=
  twice [.selectlabel (limit_coarse * 4 / 5) (limit_coarse * 4 / 5),
         .setblockprop "seawater" 0 (10 * GridSize) "<None>" 0 0 0] ++
  if bd ≠ 0 ∧ bd > limit_fine then
    twice [.selectlabel (limit_fine * 4 / 5) (limit_fine * 4 / 5),
           .setblockprop "seabed" 0 (6 * GridSize) "<None>" 0 0 0] ++
    twice [.selectlabel (limit_coarse * 4 / 5) (-limit_coarse * 4 / 5),
           .setblockprop "seabed" 0 (10 * GridSize) "<None>" 0 0 0]
  else
    twice [.selectlabel (limit_fine * 4 / 5) (limit_fine * 4 / 5),
           .setblockprop "seawater" 0 (6 * GridSize) "<None>" 0 0 0]

/-- Select-and-assign pair for armour wire label i (lines 425-426). -/
def armourPropPair (N i : ℤ) : List Event :=
  [.selectlabel (R_armour * Real.sin (((i : ℝ) - 1) * thetaOf N))
     (R_armour * Real.cos (((i : ℝ) - 1) * thetaOf N)),
   .setblockprop "armour" 0 (0.5 * GridSize) "<None>" 0 0 0]

/-- First armour layer properties: the loop of line 423 runs i from 1 to 2 N,
twice the number of wires, revisiting each label a second time. -/
def armourProps (N : ℤ) : List Event :=
  (List.range (2 * N).toNat).flatMap fun j => armourPropPair N ((j : ℤ) + 1)

/-- Properties of the area between the armour wires (lines 432-434). -/
def areaProps (N : ℤ) : List Event :=
  twice [.selectlabel ((R_armour - 0.4 * r_armour) * Real.sin ((1 - 0.5) * thetaOf N))
           ((R_armour - 0.4 * r_armour) * Real.cos ((1 - 0.5) * thetaOf N)),
         .setblockprop "seawater" 0 GridSize "<None>" 0 0 0]

/-- Over sheath properties, single-armour-layer branch (lines 466-468). -/
def overSheathProps : List Event :=
  twice [.selectlabel 0 (R_armour + r_armour + dist1 + 0.5 * over_sheath),
         .setblockprop "over" 0 GridSize "<None>" 0 0 0]

/-- Bedding properties (lines 475-477). -/
def beddingProps : List Event :=
  twice [.selectlabel 0
           (cond_center * sin60 + r_cond_total - delta_y_triangle + 0.5 * bedding),
         .setblockprop "bedding" 0 GridSize "<None>" 0 0 0]

/-- Laying up and filling properties (lines 482-484). -/
def fillingProps : List Event :=
  twice [.selectlabel 0 0, .setblockprop "bedding" 0 GridSize "<None>" 0 0 0]

/-- Metallic insulation screen properties of the three conductors
(lines 490-498). -/
def MScreenProps : List Event :=
  twice [.selectlabel (cond_center * cos60 + r_cond_total - 0.5 * insul_screen_ME)
           (-delta_y_triangle),
         .selectlabel (0 + r_cond_total - 0.5 * insul_screen_ME)
           (cond_center * sin60 - delta_y_triangle),
         .selectlabel (-(cond_center * cos60) + r_cond_total - 0.5 * insul_screen_ME)
           (-delta_y_triangle),
         .setblockprop "M_screen" 0 GridSize "<None>" 0 0 0]

/-- Non metallic insulation screen properties (lines 500-508). -/
def NMScreenProps : List Event :=
  twice [.selectlabel
           (cond_center * cos60 + r_cond_insu_screen_NM - 0.5 * insul_screen_NM)
           (-delta_y_triangle),
         .selectlabel (0 + r_cond_insu_screen_NM - 0.5 * insul_screen_NM)
           (cond_center * sin60 - delta_y_triangle),
         .selectlabel
           (-(cond_center * cos60) + r_cond_insu_screen_NM - 0.5 * insul_screen_NM)
           (-delta_y_triangle),
         .setblockprop "NM_screen" 0 GridSize "<None>" 0 0 0]

/-- Insulation properties (lines 510-518). -/
def XLPEProps : List Event :=
  twice [.selectlabel (cond_center * cos60 + r_cond_insul - 0.5 * insulation)
           (-delta_y_triangle),
         .selectlabel (0 + r_cond_insul - 0.5 * insulation)
           (cond_center * sin60 - delta_y_triangle),
         .selectlabel (-(cond_center * cos60) + r_cond_insul - 0.5 * insulation)
           (-delta_y_triangle),
         .setblockprop "XLPE" 0 GridSize "<None>" 0 0 0]

/-- Conductor screen properties (lines 520-528). -/
def condScreenProps : List Event :=
  twice [.selectlabel (cond_center * cos60 + r_cond_screen - 0.5 * cond_screen)
           (-delta_y_triangle),
         .selectlabel (0 + r_cond_screen - 0.5 * cond_screen)
           (cond_center * sin60 - delta_y_triangle),
         .selectlabel (-(cond_center * cos60) + r_cond_screen - 0.5 * cond_screen)
           (-delta_y_triangle),
         .setblockprop "NM_screen" 0 GridSize "<None>" 0 0 0]

/-- Conductor core properties binding each conductor to its circuit
(lines 530-541). -/
def conductorProps : List Event :=
  twice [.selectlabel (cond_center * cos60) (-delta_y_triangle),
         .setblockprop "copper_conductors" 0 (0.5 * GridSize) "icoil1" 0 0 0,
         .selectlabel 0 (cond_center * sin60 - delta_y_triangle),
         .setblockprop "copper_conductors" 0 (0.5 * GridSize) "icoil2" 0 0 0,
         .selectlabel (-(cond_center * cos60)) (-delta_y_triangle),
         .setblockprop "copper_conductors" 0 (0.5 * GridSize) "icoil3" 0 0 0]

/-- The three circuit property declarations (lines 546-548). -/
def circuitProps : List Event :=
  [.addcircprop "icoil1" icoil1 1,
   .addcircprop "icoil2" icoil2 1,
   .addcircprop "icoil3" icoil3 1]

/-- Saving, solving and loading the solution (lines 559-564). -/
def solveEvents : List Event :=
  [.saveas "SubseaCable_model.fem", .analyze, .loadsolution]

/-- The full event trace of the script for burial depth bd and packed armour
count N, in source order.  When N = 0, line 310 (360 divided by the count)
raises an uncaught ZeroDivisionError, so the script dies right after the
bedding is drawn: everything from the armour loop on, including the solver
invocation, is never reached. -/
def scriptTrace (bd : ℝ) (N : ℤ) : List Event :=
  envDraw ++ seabedDraw bd ++ conductor1Draw ++ conductor2Draw ++
    conductor3Draw ++ fillingDraw ++ beddingDraw ++
    if N = 0 then []
    else
      armourDraw N ++ areaDraw N ++ overSheathDraw ++
      envProps bd ++ armourProps N ++ areaProps N ++ overSheathProps ++
      beddingProps ++ fillingProps ++ MScreenProps ++ NMScreenProps ++
      XLPEProps ++ condScreenProps ++ conductorProps ++ circuitProps ++
      solveEvents

/-- The whole emitted model — registered materials plus the event trace of the
configured run — as a function of the copper_conductivity input. -/
def emittedModel (copper_conductivity : ℝ) : List Material × List Event :=
  (addedMaterials copper_conductivity, scriptTrace burial_depth NbrOfArmourElem)

/-! ## Shared numeric bounds -/

/-- The conductor radius sqrt(50 / pi) lies between 3.98 and 4. -/
theorem r_cond_bounds : 3.98 < r_cond ∧ r_cond < 4 := by
  constructor
  · rw [r_cond, A_cond]
    refine (Real.lt_sqrt (by norm_num)).2 ?_
    rw [lt_div_iff₀ Real.pi_pos]
    nlinarith [Real.pi_lt_d2]
  · rw [r_cond, A_cond]
    refine (Real.sqrt_lt' (by norm_num)).2 ?_
    rw [div_lt_iff₀ Real.pi_pos]
    nlinarith [Real.pi_gt_d2]

/-- The square root of 3 lies between 1.732 and 1.7321. -/
theorem sqrt3_bounds : 1.732 < Real.sqrt 3 ∧ Real.sqrt 3 < 1.7321 := by
  constructor
  · exact (Real.lt_sqrt (by norm_num)).2 (by norm_num)
  · exact (Real.sqrt_lt' (by norm_num)).2 (by norm_num)

/-- Sixty degrees is pi over three radians. -/
theorem radians_sixty : radians 60 = π / 3 := by
  rw [radians]; ring

/-- The script's cos60 constant equals one half. -/
theorem cos60_eq : cos60 = 1 / 2 := by
  rw [cos60, radians_sixty, Real.cos_pi_div_three]

/-- The script's sin60 constant equals sqrt 3 over 2. -/
theorem sin60_eq : sin60 = Real.sqrt 3 / 2 := by
  rw [sin60, radians_sixty, Real.sin_pi_div_three]

/-- Closed form of the armour ring radius in terms of the conductor radius. -/
theorem R_armour_eq :
    R_armour = (2 * r_cond + 13.8) * Real.sqrt 3 / 3 + r_cond + 9 := by
  simp only [R_armour, cond_center, delta_y_triangle, r_cond_total, cond_screen,
    insulation, insul_screen_NM, insul_screen_ME, bedding, r_armour, cond_surf,
    sin60_eq]
  ring

/-- The armour ring radius of the configured cable lies between 25.5 and
25.6 millimeters. -/
theorem R_armour_bounds : 25.5 < R_armour ∧ R_armour < 25.6 := by
  rw [R_armour_eq]
  obtain ⟨h₁, h₂⟩ := r_cond_bounds
  obtain ⟨h₃, h₄⟩ := sqrt3_bounds
  constructor <;> nlinarith

/-- The packed armour wire count of the configured cable is 39. -/
theorem NbrOfArmourElem_eq : NbrOfArmourElem = 39 := by
  rw [NbrOfArmourElem, Armour_perimeter, r_armour, space]
  rw [Int.floor_eq_iff]
  obtain ⟨h₁, h₂⟩ := R_armour_bounds
  constructor
  · push_cast
    rw [le_div_iff₀ (by norm_num)]
    nlinarith [Real.pi_gt_d2]
  · push_cast
    rw [div_lt_iff₀ (by norm_num)]
    nlinarith [Real.pi_lt_d2]

/-- The truncated overall cable radius used by the sampling loops is 29. -/
theorem intRcable_eq : intRcable = 29 := by
  rw [intRcable, R_cable_total, r_armour, over_sheath, dist1, Int.floor_eq_iff]
  obtain ⟨h₁, h₂⟩ := R_armour_bounds
  constructor
  · push_cast; linarith
  · push_cast; linarith

/-! ## Claim C1 -/

/-- C1: the material named copper_conductors is registered with electrical
conductivity seawater_conductivity times ten to the minus six, that is
5.0e-6 in solver units (MS/m), not the copper conductivity input; and the
whole emitted model — registered materials, the event trace of drawing
primitives and block properties, and the circuit excitations — is the same
for every value of the copper_conductivity input, which therefore has no
effect on any output. -/
theorem copper_material_uses_seawater_conductivity :
    (∀ c₁ c₂ : ℝ, emittedModel c₁ = emittedModel c₂) ∧
    (addedMaterials copper_conductivity).find?
        (fun m => m.name == "copper_conductors") =
      some ⟨"copper_conductors", copper_permeability, copper_permeability, 0, 0,
        seawater_conductivity * (10 : ℝ) ^ (-6 : ℤ)⟩ ∧
    seawater_conductivity * (10 : ℝ) ^ (-6 : ℤ) = 5.0 * (10 : ℝ) ^ (-6 : ℤ) := by
  refine ⟨fun c₁ c₂ => rfl, ?_, by rw [seawater_conductivity]⟩
  rfl

/-! ## Claim C2 -/

/-- C2: for every ring center radius R, wire radius r_w and gap g, all
positive, the armour packer returns the count N equal to the floor of
2 pi R over (2 r_w + g), this count satisfies
N (2 r_w + g) <= 2 pi R < (N + 1) (2 r_w + g), and the script's
NbrOfArmourElem is exactly this packer applied to its ring. -/
theorem armour_packer_count_bounds (R r_w g : ℝ) (hR : 0 < R) (hw : 0 < r_w)
    (hg : 0 < g) :
    armourCount R r_w g = ⌊2 * π * R / (2 * r_w + g)⌋ ∧
    (armourCount R r_w g : ℝ) * (2 * r_w + g) ≤ 2 * π * R ∧
    2 * π * R < ((armourCount R r_w g : ℝ) + 1) * (2 * r_w + g) ∧
    NbrOfArmourElem = armourCount R_armour r_armour space := by
  have hd : (0 : ℝ) < 2 * r_w + g := by linarith
  refine ⟨rfl, ?_, ?_, rfl⟩
  · calc (armourCount R r_w g : ℝ) * (2 * r_w + g)
        ≤ 2 * π * R / (2 * r_w + g) * (2 * r_w + g) :=
          mul_le_mul_of_nonneg_right (Int.floor_le _) hd.le
      _ = 2 * π * R := div_mul_cancel₀ _ hd.ne'
  · calc 2 * π * R = 2 * π * R / (2 * r_w + g) * (2 * r_w + g) :=
          (div_mul_cancel₀ _ hd.ne').symm
      _ < ((armourCount R r_w g : ℝ) + 1) * (2 * r_w + g) :=
          mul_lt_mul_of_pos_right (Int.lt_floor_add_one _) hd

/-- Witness for C2 at the concrete input R = 1, r_w = 1, g = 1. -/
theorem armour_packer_count_bounds_witness :
    (0 : ℝ) < 1 ∧
    (armourCount 1 1 1 = ⌊2 * π * 1 / (2 * 1 + 1)⌋ ∧
      (armourCount 1 1 1 : ℝ) * (2 * 1 + 1) ≤ 2 * π * 1 ∧
      2 * π * 1 < ((armourCount 1 1 1 : ℝ) + 1) * (2 * 1 + 1) ∧
      NbrOfArmourElem = armourCount R_armour r_armour space) :=
  ⟨by norm_num,
   armour_packer_count_bounds 1 1 1 (by norm_num) (by norm_num) (by norm_num)⟩

/-! ## Claim C10 (corrected) -/

/-- C10 counterexample: the configured cable's packed armour count is not 38
as the claim states. -/
theorem armour_count_not_38 : NbrOfArmourElem ≠ 38 := by
  rw [NbrOfArmourElem_eq]; decide

/-- C10 (amended): with wire radius 2.00 mm and gap 0.05 mm, the first armour
ring's packed count is the floor of 2 pi R over 4.05 with R the ring center
radius; the program's configured ring radius is about 25.56 mm (it lies in
the interval from 25.5 to 25.6), and the count is 39, not 38. -/
theorem armour_count_of_configured_cable :
    NbrOfArmourElem = ⌊2 * π * R_armour / (2 * r_armour + space)⌋ ∧
    2 * r_armour + space = 4.05 ∧
    25.5 < R_armour ∧ R_armour < 25.6 ∧
    NbrOfArmourElem = 39 :=
  ⟨rfl, by rw [r_armour, space]; norm_num, R_armour_bounds.1, R_armour_bounds.2,
   NbrOfArmourElem_eq⟩

/-! ## Claim C6 -/

/-- C6: for every positive center spacing d, the three conductor centers
(d cos60, -delta), (0, d sin60 - delta), (-d cos60, -delta) with apothem
delta = d sqrt 3 / 6 are pairwise at distance exactly d — an equilateral
triangle with side length equal to the configured spacing; and the script's
conductor labels (lines 201, 230, 259) are precisely these centers at
spacing cond_center. -/
theorem bundle_centers_equilateral (d : ℝ) (hd : 0 < d) :
    planeDist (bundleCenter1 d) (bundleCenter2 d) = d ∧
    planeDist (bundleCenter2 d) (bundleCenter3 d) = d ∧
    planeDist (bundleCenter1 d) (bundleCenter3 d) = d ∧
    deltaY d = d * Real.sqrt 3 / 6 ∧
    bundleCenter1 cond_center = (cond_center * cos60, -delta_y_triangle) ∧
    bundleCenter2 cond_center = (0, cond_center * sin60 - delta_y_triangle) ∧
    bundleCenter3 cond_center = (-(cond_center * cos60), -delta_y_triangle) := by
  have h3 : Real.sqrt 3 ^ 2 = 3 := Real.sq_sqrt (by norm_num)
  refine ⟨?_, ?_, ?_, by rw [deltaY]; ring, rfl, rfl, rfl⟩
  · rw [planeDist, bundleCenter1, bundleCenter2, deltaY, cos60_eq, sin60_eq]
    have harg : (d * (1 / 2) - 0) ^ 2 +
        (-(1 / 6 * Real.sqrt 3 * d) - (d * (Real.sqrt 3 / 2) -
          1 / 6 * Real.sqrt 3 * d)) ^ 2 = d ^ 2 := by
      linear_combination (d ^ 2 / 4) * h3
    rw [harg, Real.sqrt_sq hd.le]
  · rw [planeDist, bundleCenter2, bundleCenter3, deltaY, cos60_eq, sin60_eq]
    have harg : (0 - -(d * (1 / 2))) ^ 2 +
        (d * (Real.sqrt 3 / 2) - 1 / 6 * Real.sqrt 3 * d -
          -(1 / 6 * Real.sqrt 3 * d)) ^ 2 = d ^ 2 := by
      linear_combination (d ^ 2 / 4) * h3
    rw [harg, Real.sqrt_sq hd.le]
  · rw [planeDist, bundleCenter1, bundleCenter3, deltaY, cos60_eq]
    have harg : (d * (1 / 2) - -(d * (1 / 2))) ^ 2 +
        (-(1 / 6 * Real.sqrt 3 * d) - -(1 / 6 * Real.sqrt 3 * d)) ^ 2 = d ^ 2 := by
      ring
    rw [harg, Real.sqrt_sq hd.le]

/-- Witness for C6 at the concrete spacing d = 1. -/
theorem bundle_centers_equilateral_witness :
    (0 : ℝ) < 1 ∧
    (planeDist (bundleCenter1 1) (bundleCenter2 1) = 1 ∧
      planeDist (bundleCenter2 1) (bundleCenter3 1) = 1 ∧
      planeDist (bundleCenter1 1) (bundleCenter3 1) = 1 ∧
      deltaY 1 = 1 * Real.sqrt 3 / 6 ∧
      bundleCenter1 cond_center = (cond_center * cos60, -delta_y_triangle) ∧
      bundleCenter2 cond_center = (0, cond_center * sin60 - delta_y_triangle) ∧
      bundleCenter3 cond_center = (-(cond_center * cos60), -delta_y_triangle)) :=
  ⟨by norm_num, bundle_centers_equilateral 1 (by norm_num)⟩

/-! ## Claim C7 -/

/-- The cumulative radius list has the same length as the thickness list. -/
theorem cumRadii_length (r : ℝ) (ts : List ℝ) :
    (cumRadii r ts).length = ts.length := by
  induction ts generalizing r with
  | nil => rfl
  | cons t ts ih => simp [cumRadii, ih]

/-- Prepending the base radius, the cumulative radii are adjacentwise
non-decreasing when all thicknesses are non-negative. -/
theorem cumRadii_chain (r : ℝ) (ts : List ℝ) (h : ∀ t ∈ ts, 0 ≤ t) :
    List.Chain' (· ≤ ·) (r :: cumRadii r ts) := by
  induction ts generalizing r with
  | nil => simp [cumRadii]
  | cons t ts ih =>
    rw [cumRadii]
    refine List.Chain'.cons ?_ (ih (r + t) fun u hu => h u (List.mem_cons_of_mem t hu))
    have := h t (List.mem_cons_self t ts)
    linarith

/-- The k-th cumulative radius is the base radius plus the sum of the first
k + 1 thicknesses. -/
theorem cumRadii_get (r : ℝ) (ts : List ℝ) (k : ℕ)
    (hk : k < (cumRadii r ts).length) :
    (cumRadii r ts).get ⟨k, hk⟩ = r + (ts.take (k + 1)).sum := by
  induction ts generalizing r k with
  | nil => simp [cumRadii] at hk
  | cons t ts ih =>
    cases k with
    | zero => simp [cumRadii]
    | succ k =>
      have hk2 : k < (cumRadii (r + t) ts).length := by
        simpa [cumRadii] using hk
      have := ih (r + t) k hk2
      simp only [cumRadii, List.get_cons_succ, List.take_succ_cons, List.sum_cons]
      rw [this]; ring

/-- C7: for every conductor area A > 0 and list of non-negative layer
thicknesses, the base radius is sqrt(A / pi), the k-th cumulative radius is
the base radius plus the sum of the first k + 1 thicknesses, the radius
sequence is non-decreasing (already from the base radius) and has the same
length as the thickness list; in the program this pattern produces r_cond,
r_cond_screen, r_cond_insul, r_cond_insu_screen_NM and r_cond_total. -/
theorem layer_radii_cumulative (A : ℝ) (ts : List ℝ) (hA : 0 < A)
    (hts : ∀ t ∈ ts, 0 ≤ t) :
    baseRadius A = Real.sqrt (A / π) ∧
    (layerRadii A ts).length = ts.length ∧
    List.Chain' (· ≤ ·) (baseRadius A :: layerRadii A ts) ∧
    (∀ (k : ℕ) (hk : k < (layerRadii A ts).length),
      (layerRadii A ts).get ⟨k, hk⟩ = baseRadius A + (ts.take (k + 1)).sum) ∧
    baseRadius A_cond = r_cond ∧
    layerRadii A_cond [cond_screen, insulation, insul_screen_NM, insul_screen_ME] =
      [r_cond_screen, r_cond_insul, r_cond_insu_screen_NM, r_cond_total] :=
  ⟨rfl, cumRadii_length _ ts, cumRadii_chain _ ts hts,
   fun k hk => cumRadii_get _ ts k hk, rfl, rfl⟩

/-- Witness for C7 at area 50 and thickness list [1, 2]. -/
theorem layer_radii_cumulative_witness :
    (0 : ℝ) < 50 ∧ (∀ t ∈ [(1 : ℝ), 2], 0 ≤ t) ∧
    (baseRadius 50 = Real.sqrt (50 / π) ∧
      (layerRadii 50 [1, 2]).length = List.length [(1 : ℝ), 2] ∧
      List.Chain' (· ≤ ·) (baseRadius 50 :: layerRadii 50 [1, 2]) ∧
      (∀ (k : ℕ) (hk : k < (layerRadii 50 [1, 2]).length),
        (layerRadii 50 [1, 2]).get ⟨k, hk⟩ =
          baseRadius 50 + (([(1 : ℝ), 2]).take (k + 1)).sum) ∧
      baseRadius A_cond = r_cond ∧
      layerRadii A_cond [cond_screen, insulation, insul_screen_NM, insul_screen_ME] =
        [r_cond_screen, r_cond_insul, r_cond_insu_screen_NM, r_cond_total]) :=
  ⟨by norm_num, by intro t ht; fin_cases ht <;> norm_num,
   layer_radii_cumulative 50 [1, 2] (by norm_num)
     (by intro t ht; fin_cases ht <;> norm_num)⟩

/-! ## Claim C5 -/

/-- The peak current is non-negative. -/
theorem AMPS_nonneg : 0 ≤ AMPS :=
  mul_nonneg (Real.sqrt_nonneg 2) (by norm_num [AMPS_RMS])

/-- The peak current is below 0.081 A. -/
theorem AMPS_lt : AMPS < 0.081 := by
  have h : Real.sqrt 2 < 1.42 := (Real.sqrt_lt' (by norm_num)).2 (by norm_num)
  rw [AMPS, AMPS_RMS]
  nlinarith [Real.sqrt_nonneg 2]

/-- The magnitude of the first circuit phasor is the peak current. -/
theorem abs_icoil1 : Complex.abs icoil1 = AMPS := by
  have h : icoil1 = ((AMPS : ℝ) : ℂ) := by rw [icoil1]; ring
  rw [h, Complex.abs_ofReal, abs_of_nonneg AMPS_nonneg]

/-- The magnitude of the second circuit phasor in closed form. -/
theorem abs_icoil2 : Complex.abs icoil2 = AMPS * Real.sqrt 0.999956 := by
  have h : icoil2 = ((AMPS : ℝ) : ℂ) * (((-0.5 : ℝ) : ℂ) + ((0.866 : ℝ) : ℂ) * Complex.I) := by
    rw [icoil2]; norm_num; ring
  rw [h, map_mul, Complex.abs_ofReal, abs_of_nonneg AMPS_nonneg,
    Complex.abs_add_mul_I]
  norm_num

/-- The magnitude of the third circuit phasor in closed form. -/
theorem abs_icoil3 : Complex.abs icoil3 = AMPS * Real.sqrt 0.999956 := by
  have h : icoil3 = ((AMPS : ℝ) : ℂ) * (((-0.5 : ℝ) : ℂ) + ((-0.866 : ℝ) : ℂ) * Complex.I) := by
    rw [icoil3]; norm_num; ring
  rw [h, map_mul, Complex.abs_ofReal, abs_of_nonneg AMPS_nonneg,
    Complex.abs_add_mul_I]
  norm_num

/-- The square root of 0.999956 lies between 0.99997 and 1. -/
theorem sqrt_deficit_bounds :
    0.99997 < Real.sqrt 0.999956 ∧ Real.sqrt 0.999956 ≤ 1 := by
  constructor
  · exact (Real.lt_sqrt (by norm_num)).2 (by norm_num)
  · calc Real.sqrt 0.999956 ≤ Real.sqrt 1 := Real.sqrt_le_sqrt (by norm_num)
      _ = 1 := Real.sqrt_one

/-- Cosine of 120 degrees. -/
theorem cos_radians_120 : Real.cos (radians 120) = -(1 / 2) := by
  have h : radians 120 = π - π / 3 := by rw [radians]; ring
  rw [h, Real.cos_pi_sub, Real.cos_pi_div_three]

/-- Sine of 120 degrees. -/
theorem sin_radians_120 : Real.sin (radians 120) = Real.sqrt 3 / 2 := by
  have h : radians 120 = π - π / 3 := by rw [radians]; ring
  rw [h, Real.sin_pi_sub, Real.sin_pi_div_three]

/-- C5: the three emitted circuit phasors AMPS (1 + 0j),
AMPS (-0.5 + 0.866j) and AMPS (-0.5 - 0.866j) sum to the zero vector
(exactly, hence within any floating tolerance); their magnitudes agree to
within the floating tolerance 0.00001 (the second and third are exactly
equal, and each differs from the first by less than 0.00001 because 0.866
approximates sqrt 3 / 2); and their phases are 0, +120 and -120 degrees:
the first phasor is exactly AMPS times the unit phasor at 0 degrees, the
second is within 0.00001 of AMPS times the unit phasor at +120 degrees, and
the third is within 0.00001 of AMPS times the unit phasor at -120 degrees. -/
theorem balanced_three_phase_phasors :
    icoil1 + icoil2 + icoil3 = 0 ∧
    |Complex.abs icoil2 - Complex.abs icoil1| ≤ 0.00001 ∧
    |Complex.abs icoil3 - Complex.abs icoil1| ≤ 0.00001 ∧
    Complex.abs icoil3 = Complex.abs icoil2 ∧
    icoil1 = (AMPS : ℂ) * unitPhasor (radians 0) ∧
    Complex.abs (icoil2 - (AMPS : ℂ) * unitPhasor (radians 120)) ≤ 0.00001 ∧
    Complex.abs (icoil3 - (AMPS : ℂ) * unitPhasor (radians (-120))) ≤ 0.00001 := by
  have hA0 := AMPS_nonneg
  have hA1 := AMPS_lt
  obtain ⟨hs1, hs2⟩ := sqrt_deficit_bounds
  obtain ⟨h31, h32⟩ := sqrt3_bounds
  refine ⟨by rw [icoil1, icoil2, icoil3]; ring, ?_, ?_, ?_, ?_, ?_, ?_⟩
  · rw [abs_icoil1, abs_icoil2, abs_le]
    constructor <;> nlinarith
  · rw [abs_icoil1, abs_icoil3, abs_le]
    constructor <;> nlinarith
  · rw [abs_icoil2, abs_icoil3]
  · rw [unitPhasor, radians, icoil1]
    simp [Real.cos_zero, Real.sin_zero]
  · have h : icoil2 - (AMPS : ℂ) * unitPhasor (radians 120) =
        ((AMPS * (0.866 - Real.sqrt 3 / 2) : ℝ) : ℂ) * Complex.I := by
      rw [icoil2, unitPhasor, cos_radians_120, sin_radians_120]
      norm_num
      ring
    rw [h, map_mul, Complex.abs_I, Complex.abs_ofReal, mul_one,
      abs_of_nonpos (by nlinarith)]
    nlinarith
  · have hc : Real.cos (radians (-120)) = -(1 / 2) := by
      have h : radians (-120) = -(radians 120) := by rw [radians, radians]; ring
      rw [h, Real.cos_neg, cos_radians_120]
    have hs : Real.sin (radians (-120)) = -(Real.sqrt 3 / 2) := by
      have h : radians (-120) = -(radians 120) := by rw [radians, radians]; ring
      rw [h, Real.sin_neg, sin_radians_120]
    have h : icoil3 - (AMPS : ℂ) * unitPhasor (radians (-120)) =
        ((AMPS * (Real.sqrt 3 / 2 - 0.866) : ℝ) : ℂ) * Complex.I := by
      rw [icoil3, unitPhasor, hc, hs]
      norm_num
      ring
    rw [h, map_mul, Complex.abs_I, Complex.abs_ofReal, mul_one,
      abs_of_nonneg (by nlinarith)]
    nlinarith

/-! ## Trace helper lemmas -/

/-- The trace assigns the named material to no region. -/
def avoidsMaterial (m : String) (l : List Event) : Prop :=
  l.all (fun e => !(Event.setsMaterial m e)) = true

/-- No drawing event of the environment boundary assigns seabed. -/
theorem envDraw_avoids : avoidsMaterial "seabed" envDraw := rfl

/-- No drawing event of conductor 1 assigns seabed. -/
theorem conductor1Draw_avoids : avoidsMaterial "seabed" conductor1Draw := rfl

/-- No drawing event of conductor 2 assigns seabed. -/
theorem conductor2Draw_avoids : avoidsMaterial "seabed" conductor2Draw := rfl

/-- No drawing event of conductor 3 assigns seabed. -/
theorem conductor3Draw_avoids : avoidsMaterial "seabed" conductor3Draw := rfl

/-- The filling label assigns nothing. -/
theorem fillingDraw_avoids : avoidsMaterial "seabed" fillingDraw := rfl

/-- No drawing event of the bedding assigns seabed. -/
theorem beddingDraw_avoids : avoidsMaterial "seabed" beddingDraw := rfl

/-- No armour drawing event assigns seabed. -/
theorem armourDraw_avoids (N : ℤ) : avoidsMaterial "seabed" (armourDraw N) := by
  rw [avoidsMaterial, List.all_eq_true]
  intro e he
  rw [armourDraw, List.mem_flatMap] at he
  obtain ⟨j, _, hj⟩ := he
  simp only [armourWireDraw, List.mem_cons, List.not_mem_nil, or_false] at hj
  rcases hj with h | h | h <;> subst h <;> rfl

/-- The between-armour label assigns nothing. -/
theorem areaDraw_avoids (N : ℤ) : avoidsMaterial "seabed" (areaDraw N) := rfl

/-- No over sheath drawing event assigns seabed. -/
theorem overSheathDraw_avoids : avoidsMaterial "seabed" overSheathDraw := rfl

/-- When the burial depth is zero or does not exceed the fine mesh half
width, the environment property events assign seawater everywhere and never
seabed. -/
theorem envProps_avoids (bd : ℝ) (h : ¬(bd ≠ 0 ∧ bd > limit_fine)) :
    avoidsMaterial "seabed" (envProps bd) := by
  rw [avoidsMaterial, envProps, if_neg h]
  rfl

/-- Armour property events assign only the armour material. -/
theorem armourProps_avoids (N : ℤ) : avoidsMaterial "seabed" (armourProps N) := by
  rw [avoidsMaterial, List.all_eq_true]
  intro e he
  rw [armourProps, List.mem_flatMap] at he
  obtain ⟨j, _, hj⟩ := he
  simp only [armourPropPair, List.mem_cons, List.not_mem_nil, or_false] at hj
  rcases hj with h | h <;> subst h <;> rfl

/-- The between-armour properties assign seawater, not seabed. -/
theorem areaProps_avoids (N : ℤ) : avoidsMaterial "seabed" (areaProps N) := rfl

/-- The over sheath properties assign the over material. -/
theorem overSheathProps_avoids : avoidsMaterial "seabed" overSheathProps := rfl

/-- The bedding properties assign the bedding material. -/
theorem beddingProps_avoids : avoidsMaterial "seabed" beddingProps := rfl

/-- The filling properties assign the bedding material. -/
theorem fillingProps_avoids : avoidsMaterial "seabed" fillingProps := rfl

/-- The metallic screen properties assign M_screen. -/
theorem MScreenProps_avoids : avoidsMaterial "seabed" MScreenProps := rfl

/-- The non metallic screen properties assign NM_screen. -/
theorem NMScreenProps_avoids : avoidsMaterial "seabed" NMScreenProps := rfl

/-- The insulation properties assign XLPE. -/
theorem XLPEProps_avoids : avoidsMaterial "seabed" XLPEProps := rfl

/-- The conductor screen properties assign NM_screen. -/
theorem condScreenProps_avoids : avoidsMaterial "seabed" condScreenProps := rfl

/-- The conductor core properties assign copper_conductors. -/
theorem conductorProps_avoids : avoidsMaterial "seabed" conductorProps := rfl

/-- Circuit declarations assign no material. -/
theorem circuitProps_avoids : avoidsMaterial "seabed" circuitProps := rfl

/-- Save, analyze and load assign no material. -/
theorem solveEvents_avoids : avoidsMaterial "seabed" solveEvents := rfl

/-- When the burial depth is zero or does not exceed the fine mesh half
width, the whole script trace assigns the seabed material to no region, for
every packed armour count. -/
theorem scriptTrace_avoids_seabed (bd : ℝ) (N : ℤ)
    (h : ¬(bd ≠ 0 ∧ bd > limit_fine)) :
    avoidsMaterial "seabed" (scriptTrace bd N) := by
  have hsb : seabedDraw bd = [] := by rw [seabedDraw, if_neg h]
  rw [avoidsMaterial, scriptTrace, hsb]
  simp only [List.all_append, Bool.and_eq_true, List.all_nil, List.nil_append,
    true_and, and_true, and_assoc]
  refine ⟨envDraw_avoids, conductor1Draw_avoids, conductor2Draw_avoids,
    conductor3Draw_avoids, fillingDraw_avoids, beddingDraw_avoids, ?_⟩
  split
  · rfl
  · simp only [List.all_append, Bool.and_eq_true, and_assoc]
    exact ⟨armourDraw_avoids N, areaDraw_avoids N, overSheathDraw_avoids,
      envProps_avoids bd h, armourProps_avoids N, areaProps_avoids N,
      overSheathProps_avoids, beddingProps_avoids, fillingProps_avoids,
      MScreenProps_avoids, NMScreenProps_avoids, XLPEProps_avoids,
      condScreenProps_avoids, conductorProps_avoids, circuitProps_avoids,
      solveEvents_avoids⟩

/-! ## Claim C8 -/

/-- C8: when the burial depth is 0, the seabed split line and its label are
not emitted, no region of the whole trace is assigned the seabed material,
and every sample of every field profile — near (offsets int(R) + 100 p), far
(offsets int(R) + 1000 p) and radial (any integer height n) — is normalized
by seawater conductivity regardless of the sample's offset. -/
theorem surface_laid_single_medium :
    seabedDraw 0 = [] ∧
    avoidsMaterial "seabed" (scriptTrace 0 NbrOfArmourElem) ∧
    (∀ (p : ℤ) (j : ℝ),
      normE 0 (yNear p) j = |j| * 10 ^ 6 / seawater_conductivity * 10 ^ 6) ∧
    (∀ (p : ℤ) (j : ℝ),
      normE 0 (yFar p) j = |j| * 10 ^ 6 / seawater_conductivity * 10 ^ 6) ∧
    (∀ (n : ℤ) (j : ℝ),
      normE 0 ((n : ℤ) : ℝ) j = |j| * 10 ^ 6 / seawater_conductivity * 10 ^ 6) := by
  have hcond : ∀ y : ℝ, ¬((0 : ℝ) ≠ 0 ∧ y ≤ (0 : ℝ)) := by
    rintro y ⟨h0, _⟩; exact h0 rfl
  have hskip : ¬((0 : ℝ) ≠ 0 ∧ (0 : ℝ) > limit_fine) := by
    rintro ⟨h0, _⟩; exact h0 rfl
  refine ⟨?_, ?_, ?_, ?_, ?_⟩
  · rw [seabedDraw, if_neg hskip]
  · exact scriptTrace_avoids_seabed 0 _ hskip
  · intro p j; rw [normE, if_neg (hcond _)]
  · intro p j; rw [normE, if_neg (hcond _)]
  · intro n j; rw [normE, if_neg (hcond _)]

/-! ## Claim C4 (corrected) -/

/-- C4 counterexample: at burial depth 400 mm — positive and not exceeding
the fine mesh half width — the near-profile sample at height
int(R_cable_total) + 100 = 129 mm is NOT normalized by seawater
conductivity: the sampler divides by seabed conductivity because the sample
height is below the burial depth, even though no seabed region exists in the
emitted model. -/
theorem shallow_burial_seabed_normalization :
    0 < (400 : ℝ) ∧ (400 : ℝ) ≤ limit_fine ∧
    normE 400 (yNear 1) 1 ≠ |(1 : ℝ)| * 10 ^ 6 / seawater_conductivity * 10 ^ 6 := by
  have hy : yNear 1 = 129 := by rw [yNear, intRcable_eq]; norm_num
  refine ⟨by norm_num, by norm_num [limit_fine], ?_⟩
  rw [hy, normE, if_pos ⟨by norm_num, by norm_num⟩]
  rw [seabed_conductivity, seawater_conductivity]
  norm_num

/-- C4 (amended): when the burial depth is positive but does not exceed the
fine mesh half width (400 mm), the geometric seabed and seawater distinction
is indeed skipped — no seabed split line or label is emitted and no region
of the trace is assigned the seabed material, the whole near zone being one
medium (seawater) — but the field sampler does not normalize every sample by
that medium's conductivity: it still divides by seabed conductivity for
every sample whose height is at or below the burial depth, and by seawater
conductivity only above it. -/
theorem shallow_burial_skips_seabed_geometry (bd : ℝ) (h₁ : 0 < bd)
    (h₂ : bd ≤ limit_fine) :
    seabedDraw bd = [] ∧
    avoidsMaterial "seabed" (scriptTrace bd NbrOfArmourElem) ∧
    (∀ y j : ℝ, y ≤ bd →
      normE bd y j = |j| * 10 ^ 6 / seabed_conductivity * 10 ^ 6) ∧
    (∀ y j : ℝ, bd < y →
      normE bd y j = |j| * 10 ^ 6 / seawater_conductivity * 10 ^ 6) := by
  have hc : ¬(bd ≠ 0 ∧ bd > limit_fine) := by
    rintro ⟨_, hgt⟩; linarith
  refine ⟨by rw [seabedDraw, if_neg hc], scriptTrace_avoids_seabed bd _ hc, ?_, ?_⟩
  · intro y j hy
    rw [normE, if_pos ⟨ne_of_gt h₁, hy⟩]
  · intro y j hy
    rw [normE, if_neg]
    rintro ⟨_, hle⟩; linarith

/-- Witness for the amended C4 at the concrete burial depth 400 mm. -/
theorem shallow_burial_skips_seabed_geometry_witness :
    0 < (400 : ℝ) ∧ (400 : ℝ) ≤ limit_fine ∧
    (seabedDraw 400 = [] ∧
      avoidsMaterial "seabed" (scriptTrace 400 NbrOfArmourElem) ∧
      (∀ y j : ℝ, y ≤ 400 →
        normE 400 y j = |j| * 10 ^ 6 / seabed_conductivity * 10 ^ 6) ∧
      (∀ y j : ℝ, (400 : ℝ) < y →
        normE 400 y j = |j| * 10 ^ 6 / seawater_conductivity * 10 ^ 6)) :=
  ⟨by norm_num, by norm_num [limit_fine],
   shallow_burial_skips_seabed_geometry 400 (by norm_num)
     (by norm_num [limit_fine])⟩

/-! ## Claim C3 (corrected) -/

/-- C3 counterexample: with packed armour count 0, the script's emitted
trace still contains drawn geometry — the environment boundary lines, the
conductor circles and the bedding are all emitted before the count is even
computed — so the zero count is not detected before geometry emission. -/
theorem zero_count_geometry_already_emitted :
    (scriptTrace burial_depth 0).any Event.isGeometry = true := by
  rw [List.any_eq_true]
  refine ⟨Event.drawline limit_coarse limit_coarse limit_coarse (-limit_coarse),
    ?_, rfl⟩
  rw [scriptTrace]
  refine List.mem_append_left _ ?_
  rw [envDraw]
  simp

/-- C3 (amended): if the computed armour wire count is 0, the script does
abort before invoking the solver — but through an uncaught ZeroDivisionError
at the angular step computation of line 310, not an explicit configuration
check, and only after the environment and conductor geometry has already
been emitted.  The trace for count 0 contains no solver invocation yet
contains the environment boundary line, while the configured run (count 39)
does invoke the solver. -/
theorem zero_count_aborts_before_solver :
    (scriptTrace burial_depth 0).all (fun e => !(Event.isAnalyze e)) = true ∧
    Event.drawline limit_coarse limit_coarse limit_coarse (-limit_coarse) ∈
      scriptTrace burial_depth 0 ∧
    Event.analyze ∈ scriptTrace burial_depth NbrOfArmourElem := by
  have hsb : seabedDraw burial_depth =
      [.addblocklabel (limit_coarse * 4 / 5) (-limit_coarse * 4 / 5),
       .drawline (-limit_coarse) burial_depth limit_coarse burial_depth] := by
    rw [seabedDraw, if_pos]
    exact ⟨by rw [burial_depth]; norm_num, by rw [burial_depth, limit_fine]; norm_num⟩
  refine ⟨?_, ?_, ?_⟩
  · rw [scriptTrace, if_pos rfl, hsb]
    simp only [List.all_append, Bool.and_eq_true, List.all_nil, and_true,
      List.append_nil, and_assoc]
    exact ⟨rfl, rfl, rfl, rfl, rfl, rfl, rfl⟩
  · rw [scriptTrace]
    refine List.mem_append_left _ ?_
    rw [envDraw]
    simp
  · rw [scriptTrace, if_neg (by rw [NbrOfArmourElem_eq]; decide)]
    simp [solveEvents]

/-! ## Claim C9 (corrected) -/

/-- For a nonzero count, the angular step is 2 pi over N radians. -/
theorem thetaOf_eq (N : ℤ) (hN : N ≠ 0) : thetaOf N = 2 * π / (N : ℝ) := by
  have h : ((N : ℝ)) ≠ 0 := Int.cast_ne_zero.2 hN
  rw [thetaOf, radians]
  field_simp
  ring

/-- Squared distance between two points of a circle of radius R. -/
theorem dist_sq_circle (R a b : ℝ) :
    (R * Real.sin a - R * Real.sin b) ^ 2 + (R * Real.cos a - R * Real.cos b) ^ 2 =
      2 * R ^ 2 * (1 - Real.cos (a - b)) := by
  have h1 := Real.sin_sq_add_cos_sq a
  have h2 := Real.sin_sq_add_cos_sq b
  have h3 := Real.cos_sub a b
  linear_combination (R ^ 2) * h1 + (R ^ 2) * h2 + (2 * R ^ 2) * h3

/-- Half angle form of one minus cosine. -/
theorem one_sub_cos_eq (x : ℝ) :
    1 - Real.cos x = 2 * Real.sin (x / 2) ^ 2 := by
  have h := Real.cos_sq (x / 2)
  have h2 : 2 * (x / 2) = x := by ring
  rw [h2] at h
  have h3 := Real.sin_sq_add_cos_sq (x / 2)
  linarith

/-- On the interval from c to pi minus c, the sine is at least sin c. -/
theorem sin_c_le_sin (c x : ℝ) (h0 : 0 ≤ c) (hc : c ≤ π / 2) (hx1 : c ≤ x)
    (hx2 : x ≤ π - c) : Real.sin c ≤ Real.sin x := by
  rcases le_or_lt x (π / 2) with h | h
  · exact Real.sin_le_sin_of_le_of_le_pi_div_two (by linarith [Real.pi_pos]) h hx1
  · rw [← Real.sin_pi_sub x]
    exact Real.sin_le_sin_of_le_of_le_pi_div_two (by linarith [Real.pi_pos])
      (by linarith) (by linarith)

/-- Distance between armour wires i and j on a ring of radius R with packed
count N: twice R times the sine of (j - i) pi over N. -/
theorem armour_wire_dist (R : ℝ) (hR : 0 < R) (N i j : ℤ) (hN : 1 ≤ N)
    (hi : 1 ≤ i) (hij : i < j) (hj : j ≤ N) :
    planeDist (armourWireCenter R N i) (armourWireCenter R N j) =
      2 * R * Real.sin (((j : ℝ) - (i : ℝ)) * π / (N : ℝ)) := by
  have hN0 : N ≠ 0 := by omega
  have hNr : (0 : ℝ) < (N : ℝ) := by exact_mod_cast (by omega : (0 : ℤ) < N)
  have hk1 : (1 : ℝ) ≤ (j : ℝ) - (i : ℝ) := by
    have h : ((i : ℝ)) + 1 ≤ (j : ℝ) := by exact_mod_cast hij
    linarith
  have hkN : (j : ℝ) - (i : ℝ) ≤ (N : ℝ) - 1 := by
    have h1 : ((j : ℝ)) ≤ (N : ℝ) := by exact_mod_cast hj
    have h2 : (1 : ℝ) ≤ (i : ℝ) := by exact_mod_cast hi
    linarith
  have hy0 : 0 ≤ ((j : ℝ) - (i : ℝ)) * π / (N : ℝ) :=
    div_nonneg (mul_nonneg (by linarith) Real.pi_pos.le) hNr.le
  have hyp : ((j : ℝ) - (i : ℝ)) * π / (N : ℝ) ≤ π := by
    rw [div_le_iff₀ hNr]
    nlinarith [Real.pi_pos]
  have hsin : 0 ≤ Real.sin (((j : ℝ) - (i : ℝ)) * π / (N : ℝ)) :=
    Real.sin_nonneg_of_nonneg_of_le_pi hy0 hyp
  have hab : (((i : ℝ) - 1) * thetaOf N) - (((j : ℝ) - 1) * thetaOf N) =
      -(2 * (((j : ℝ) - (i : ℝ)) * π / (N : ℝ))) := by
    rw [thetaOf_eq N hN0]
    field_simp
    ring
  have key : (R * Real.sin (((i : ℝ) - 1) * thetaOf N) -
        R * Real.sin (((j : ℝ) - 1) * thetaOf N)) ^ 2 +
      (R * Real.cos (((i : ℝ) - 1) * thetaOf N) -
        R * Real.cos (((j : ℝ) - 1) * thetaOf N)) ^ 2 =
      (2 * R * Real.sin (((j : ℝ) - (i : ℝ)) * π / (N : ℝ))) ^ 2 := by
    rw [dist_sq_circle, hab, Real.cos_neg, one_sub_cos_eq]
    have h2 : 2 * (((j : ℝ) - (i : ℝ)) * π / (N : ℝ)) / 2 =
        ((j : ℝ) - (i : ℝ)) * π / (N : ℝ) := by ring
    rw [h2]
    ring
  have hnn : 0 ≤ 2 * R * Real.sin (((j : ℝ) - (i : ℝ)) * π / (N : ℝ)) := by
    have : (0 : ℝ) ≤ 2 * R := by linarith
    exact mul_nonneg this hsin
  simp only [planeDist, armourWireCenter]
  rw [key]
  exact Real.sqrt_sq hnn

/-- C9 counterexample: the packer output does not guarantee non-overlap.
For ring radius 0.7, wire radius 1 and gap 0.05 the packed count is N = 2,
yet the two wires of that ring sit at centers (0, 0.7) and (0, -0.7), whose
distance 1.4 is less than the wire diameter 2: their circular cross-sections
overlap.  The packer's gap bounds the arc length between centers, but the
chord between them can still be shorter than two wire radii. -/
theorem armour_ring_overlap_at_count_two :
    armourCount 0.7 1 0.05 = 2 ∧
    planeDist (armourWireCenter 0.7 2 1) (armourWireCenter 0.7 2 2) < 1 + 1 := by
  constructor
  · rw [armourCount, Int.floor_eq_iff]
    constructor
    · push_cast
      rw [le_div_iff₀ (by norm_num)]
      nlinarith [Real.pi_gt_d2]
    · push_cast
      rw [div_lt_iff₀ (by norm_num)]
      nlinarith [Real.pi_lt_d2]
  · have ht : thetaOf 2 = π := by
      rw [thetaOf, radians]
      norm_num
    have h1 : armourWireCenter 0.7 2 1 = (0, 0.7) := by
      have ha : (((1 : ℤ) : ℝ) - 1) * thetaOf 2 = 0 := by push_cast; ring
      rw [armourWireCenter, ha, Real.sin_zero, Real.cos_zero]
      norm_num
    have h2 : armourWireCenter 0.7 2 2 = (0, -0.7) := by
      have ha : (((2 : ℤ) : ℝ) - 1) * thetaOf 2 = π := by rw [ht]; push_cast; ring
      rw [armourWireCenter, ha, Real.sin_pi, Real.cos_pi]
      norm_num
    rw [h1, h2, planeDist]
    have harg : (((0 : ℝ), (0.7 : ℝ)).1 - ((0 : ℝ), (-0.7 : ℝ)).1) ^ 2 +
        (((0 : ℝ), (0.7 : ℝ)).2 - ((0 : ℝ), (-0.7 : ℝ)).2) ^ 2 = 1.96 := by
      norm_num
    rw [harg]
    exact (Real.sqrt_lt' (by norm_num)).2 (by norm_num)

/-- C9 (amended): for every ring radius R > 0, wire radius r_w >= 0 and
packed count N >= 1, the N armour wires of a ring are placed at angles
(i - 1) (360 / N) degrees for i = 1..N, evenly spaced with angular step
exactly 360 / N degrees (N steps make a full turn).  Non-overlap of the
wires' circular cross-sections, however, holds only under the additional
chord condition 2 r_w < 2 R sin(pi / N) — true of the program's configured
ring but not guaranteed by the packer's arc-length gap alone, as count 2
shows: under that condition every two distinct wires' center distance
exceeds the wire diameter 2 r_w. -/
theorem armour_ring_even_spacing_no_overlap (R r_w : ℝ) (N : ℤ) (hR : 0 < R)
    (hw : 0 ≤ r_w) (hN : 1 ≤ N)
    (hchord : 2 * r_w < 2 * R * Real.sin (π / (N : ℝ))) :
    (N : ℝ) * thetaOf N = 2 * π ∧
    (∀ i : ℤ, armourWireCenter R N i =
      (R * Real.sin (((i : ℝ) - 1) * thetaOf N),
       R * Real.cos (((i : ℝ) - 1) * thetaOf N))) ∧
    (∀ i j : ℤ, 1 ≤ i → i < j → j ≤ N →
      2 * r_w < planeDist (armourWireCenter R N i) (armourWireCenter R N j)) := by
  have hN0 : N ≠ 0 := by omega
  have hNr : (0 : ℝ) < (N : ℝ) := by exact_mod_cast (by omega : (0 : ℤ) < N)
  refine ⟨?_, fun i => rfl, ?_⟩
  · rw [thetaOf_eq N hN0]
    field_simp
  · intro i j hi hij hj
    rw [armour_wire_dist R hR N i j hN hi hij hj]
    have hN2 : (2 : ℝ) ≤ (N : ℝ) := by exact_mod_cast (by omega : (2 : ℤ) ≤ N)
    have hk1 : (1 : ℝ) ≤ (j : ℝ) - (i : ℝ) := by
      have h : ((i : ℝ)) + 1 ≤ (j : ℝ) := by exact_mod_cast hij
      linarith
    have hkN : (j : ℝ) - (i : ℝ) ≤ (N : ℝ) - 1 := by
      have ha : ((j : ℝ)) ≤ (N : ℝ) := by exact_mod_cast hj
      have hb : (1 : ℝ) ≤ (i : ℝ) := by exact_mod_cast hi
      linarith
    have hc0 : 0 ≤ π / (N : ℝ) := div_nonneg Real.pi_pos.le hNr.le
    have hcq : π / (N : ℝ) ≤ π / 2 := by
      rw [div_le_div_iff₀ hNr (by norm_num)]
      nlinarith [Real.pi_pos]
    have hx1 : π / (N : ℝ) ≤ ((j : ℝ) - (i : ℝ)) * π / (N : ℝ) := by
      rw [div_le_div_iff₀ hNr hNr]
      nlinarith [mul_pos Real.pi_pos hNr,
        mul_le_mul_of_nonneg_right hk1 (mul_pos Real.pi_pos hNr).le]
    have hx2 : ((j : ℝ) - (i : ℝ)) * π / (N : ℝ) ≤ π - π / (N : ℝ) := by
      have hsum : (((j : ℝ) - (i : ℝ)) * π + π) / (N : ℝ) ≤ π := by
        rw [div_le_iff₀ hNr]
        nlinarith [mul_le_mul_of_nonneg_right hkN Real.pi_pos.le]
      have hsplit : (((j : ℝ) - (i : ℝ)) * π + π) / (N : ℝ) =
          ((j : ℝ) - (i : ℝ)) * π / (N : ℝ) + π / (N : ℝ) := by ring
      linarith [hsplit ▸ hsum]
    have hmono := sin_c_le_sin (π / (N : ℝ)) (((j : ℝ) - (i : ℝ)) * π / (N : ℝ))
      hc0 hcq hx1 hx2
    nlinarith [mul_le_mul_of_nonneg_left hmono (by linarith : (0 : ℝ) ≤ 2 * R)]

/-- Witness for the amended C9 at R = 2, r_w = 1, N = 4 (chord condition:
2 < 4 sin(pi / 4) = 2 sqrt 2). -/
theorem armour_ring_even_spacing_no_overlap_witness :
    0 < (2 : ℝ) ∧ 0 ≤ (1 : ℝ) ∧ (1 : ℤ) ≤ 4 ∧
    2 * (1 : ℝ) < 2 * 2 * Real.sin (π / ((4 : ℤ) : ℝ)) ∧
    ((((4 : ℤ)) : ℝ) * thetaOf 4 = 2 * π ∧
      (∀ i : ℤ, armourWireCenter 2 4 i =
        (2 * Real.sin (((i : ℝ) - 1) * thetaOf 4),
         2 * Real.cos (((i : ℝ) - 1) * thetaOf 4))) ∧
      (∀ i j : ℤ, 1 ≤ i → i < j → j ≤ 4 →
        2 * (1 : ℝ) < planeDist (armourWireCenter 2 4 i) (armourWireCenter 2 4 j))) := by
  have hs : 2 * (1 : ℝ) < 2 * 2 * Real.sin (π / ((4 : ℤ) : ℝ)) := by
    rw [show (((4 : ℤ)) : ℝ) = 4 from by norm_num, Real.sin_pi_div_four]
    have h : (1 : ℝ) < Real.sqrt 2 := (Real.lt_sqrt (by norm_num)).2 (by norm_num)
    nlinarith
  exact ⟨by norm_num, by norm_num, by decide, hs,
    armour_ring_even_spacing_no_overlap 2 1 4 (by norm_num) (by norm_num)
      (by decide) hs⟩

end

end EMF
